import Mathlib

/-!
# Verification of the users microservice (chriskfwoo/microservices-docker)

The repository ships the test suite `project/tests/test_users.py` and the
Alembic migration `107c2881c7ba_.py` for the `users` service.  The Flask view
functions and the SQLAlchemy `User` model themselves are not part of the
published sources, so the operational definitions below are reconstructed
from the specification's component design (sections 3, 4, 6 and 7) and from
the behaviour the test suite pins down; each such definition carries a
`Modelled from the spec:` doc comment naming the missing source.

The migration establishes unique constraints on `users.email` and
`users.username`; that is what `Store.create` reflects when it refuses a
colliding insert with `DuplicateKeyError`.
-/

namespace Users

/-- The sole entity of the data model (spec section 3): a user record with an
integer identity assigned by the Store, a username and an email. -/
structure User where
  id : Nat
  username : String
  email : String
  deriving Repr, DecidableEq

/-- Modelled from the spec: the Store (the SQLAlchemy model/session layer is
absent from `src/`).  It owns the durable collection of user records in
insertion order and the next identity to assign; ids are monotonically
increasing and never reused. -/
structure Store where
  users : List User
  nextId : Nat
  deriving Repr, DecidableEq

/-- The empty Store: no records, first id to be assigned is 1. -/
def Store.empty : Store := ⟨[], 1⟩

/-- The single error the Store can signal (spec section 7): a uniqueness
violation detected atomically at insertion. -/
inductive DuplicateKeyError where
  | duplicateKey
  deriving Repr, DecidableEq

/-- Does some record of the store collide with the candidate username or
email?  This is the uniqueness constraint installed by migration
`107c2881c7ba` on `users.email` and `users.username`. -/
def Store.collides (s : Store) (username email : String) : Bool :=
  s.users.any (fun v => v.username = username || v.email = email)

/-- Modelled from the spec: `create(username, email) -> User | DuplicateKeyError`
(spec section 4.1).  If either `username` or `email` already exists in the
collection the operation fails atomically with `DuplicateKeyError` and no
record is added; on success the new User is appended with the next id. -/
def Store.create (username email : String) (s : Store) :
    Except DuplicateKeyError (User × Store) :=
  if s.collides username email then
    .error .duplicateKey
  else
    let u : User := ⟨s.nextId, username, email⟩
    .ok (u, ⟨s.users ++ [u], s.nextId + 1⟩)

/-- Modelled from the spec: `get_by_id(id) -> User | NotFound`
(spec section 4.1), an indexed lookup by identity. -/
def Store.get_by_id (s : Store) (id : Nat) : Option User :=
  s.users.find? (fun v => v.id = id)

/-- Modelled from the spec: `list_all() -> ordered sequence of User`
(spec section 4.1): all Users in creation (insertion) order. -/
def Store.list_all (s : Store) : List User :=
  s.users

/-- Payload data attached to a response envelope (spec section 6): nothing,
a single `{username, email}` record, or a list of them. -/
inductive RespData where
  | empty
  | user (username email : String)
  | users (l : List (String × String))
  deriving Repr, DecidableEq

/-- The JSON response envelope together with the HTTP status code
(spec section 6): `{status: "success" | "fail", message?, data?}`. -/
structure Response where
  code : Nat
  status : String
  message : Option String
  data : RespData
  deriving Repr, DecidableEq

/-- A parsed JSON body for the create endpoint: the `username` and `email`
keys, each possibly missing.  An empty object `{}` has both keys missing. -/
structure Payload where
  username? : Option String
  email? : Option String
  deriving Repr, DecidableEq

/-- The `{status:"fail", message:"Invalid payload."}` HTTP 400 response. -/
def invalidPayloadResp : Response :=
  ⟨400, "fail", some "Invalid payload.", .empty⟩

/-- The `{status:"fail", message:"Sorry. That email already exists."}`
HTTP 400 response used for any duplicate-key failure. -/
def duplicateResp : Response :=
  ⟨400, "fail", some "Sorry. That email already exists.", .empty⟩

/-- The `{status:"fail", message:"User does not exist."}` HTTP 404 response. -/
def notFoundResp : Response :=
  ⟨404, "fail", some "User does not exist.", .empty⟩

/-- Modelled from the spec: the create-user endpoint (`POST /users`, spec
section 4.2; the Flask view is absent from `src/`).  An absent or malformed
body (`none`), a missing `username` or `email` key, or an empty value yields
`InvalidPayload`; a Store `DuplicateKeyError` yields the fixed duplicate
message; otherwise HTTP 201 with a message naming the new user's email. -/
def createUser (body : Option Payload) (s : Store) : Response × Store :=
  match body with
  | none => (invalidPayloadResp, s)
  | some p =>
    match p.username?, p.email? with
    | some username, some email =>
      if username = "" || email = "" then
        (invalidPayloadResp, s)
      else
        match s.create username email with
        | .error _ => (duplicateResp, s)
        | .ok (_, s') =>
          (⟨201, "success", some (email ++ " was added!"), .empty⟩, s')
    | _, _ => (invalidPayloadResp, s)

/-- Is this character a decimal digit?  Stated over the character's code
point as a natural number. -/
def isDigitChar (c : Char) : Bool :=
  48 ≤ c.toNat && c.toNat ≤ 57

/-- Modelled from the spec: interpreting the path text as a numeric
identifier (spec section 4.1: "If the input cannot be interpreted as a valid
identifier (e.g. non-numeric)").  A non-empty all-digit string parses to its
decimal value; anything else does not parse. -/
def parseId (ident : String) : Option Nat :=
  if ident.data ≠ [] ∧ ident.data.all isDigitChar then
    some (ident.data.foldl (fun n c => 10 * n + (c.toNat - 48)) 0)
  else
    none

/-- Modelled from the spec: the get-user endpoint (`GET /users/<id>`, spec
sections 4.2 and 6; the Flask view is absent from `src/`).  The identifier
arrives as path text; a non-numeric identifier and a numeric identifier
never assigned both collapse to the HTTP 404 `NotFound` response. -/
def getUser (ident : String) (s : Store) : Response :=
  match parseId ident with
  | none => notFoundResp
  | some id =>
    match s.get_by_id id with
    | none => notFoundResp
    | some u => ⟨200, "success", none, .user u.username u.email⟩

/-- Modelled from the spec: the list-users endpoint (`GET /users`, spec
section 6; the Flask view is absent from `src/`): HTTP 200 success envelope
with every `{username, email}` in creation order. -/
def listUsers (s : Store) : Response :=
  ⟨200, "success", none, .users (s.list_all.map (fun u => (u.username, u.email)))⟩

/-- Modelled from the spec: the liveness endpoint (`GET /users/ping`,
spec section 4.2): always the success envelope with message "pong!". -/
def ping : Response :=
  ⟨200, "success", some "pong!", .empty⟩

/-- A rendered server-side page, abstracted to its HTTP status code, the
constant heading and the data-dependent body the template branches on. -/
inductive PageBody where
  | noUsers
  | userList (names : List String)
  deriving Repr, DecidableEq

/-- The main route's rendered page: status code, heading text, body. -/
structure Page where
  code : Nat
  heading : String
  body : PageBody
  deriving Repr, DecidableEq

/-- Modelled from the spec: the server-rendered main route `GET /`
(the view function and `index.html` template are absent from `src/`;
behaviour reconstructed from `test_main_no_users` / `test_main_with_users`).
The page always carries the `All Users` heading; its body is the
`No users!` paragraph when the store is empty and otherwise the list of
every stored user's username in order. -/
def mainGet (s : Store) : Page :=
  ⟨200, "All Users",
    if s.users.isEmpty then .noUsers
    else .userList (s.users.map (fun u => u.username))⟩

/-- Modelled from the spec: the form-accepting create variant `POST /`
(the view function is absent from `src/`; behaviour reconstructed from
`test_main_add_user`).  The form's username/email are handed to the Store;
a `DuplicateKeyError` is swallowed, the store is left unchanged, and either
way the request redirects to `GET /`, whose page is returned. -/
def mainPost (username email : String) (s : Store) : Page × Store :=
  let s' :=
    match s.create username email with
    | .ok (_, s2) => s2
    | .error _ => s
  (mainGet s', s')

/-! ## Helper lemmas about the Store -/

theorem Store.collides_eq_true_of_mem {s : Store} {u e : String} {v : User}
    (hv : v ∈ s.users) (h : v.username = u ∨ v.email = e) :
    s.collides u e = true := by
  unfold Store.collides
  rw [List.any_eq_true]
  refine ⟨v, hv, ?_⟩
  rcases h with h | h <;> simp [h]

theorem Store.collides_eq_false_iff {s : Store} {u e : String} :
    s.collides u e = false ↔ ∀ v ∈ s.users, v.username ≠ u ∧ v.email ≠ e := by
  simp [Store.collides]

theorem Store.create_ok {s : Store} {u e : String}
    (h : s.collides u e = false) :
    s.create u e =
      Except.ok (⟨s.nextId, u, e⟩, ⟨s.users ++ [⟨s.nextId, u, e⟩], s.nextId + 1⟩) := by
  simp [Store.create, h]

theorem Store.create_error {s : Store} {u e : String}
    (h : s.collides u e = true) :
    s.create u e = Except.error DuplicateKeyError.duplicateKey := by
  simp [Store.create, h]

theorem find?_append_singleton {l : List User} {p : User → Bool} {a : User}
    (hl : ∀ x ∈ l, p x = false) (ha : p a = true) :
    (l ++ [a]).find? p = some a := by
  induction l with
  | nil => simp [List.find?, ha]
  | cons x xs ih =>
    have hx := hl x (List.mem_cons_self x xs)
    simp only [List.cons_append, List.find?, hx]
    exact ih (fun y hy => hl y (List.mem_cons_of_mem x hy))

/-! ## Claim theorems -/

/-- C1: for every create request whose username or email already exists in
the Store, the create operation fails with `DuplicateKeyError`, no record is
added (collection size unchanged), and the API responds HTTP 400 with status
marker "fail" and message "Sorry. That email already exists." regardless of
which field collided. -/
theorem create_duplicate_rejected (s : Store) (u e : String) (v : User)
    (hv : v ∈ s.users) (hcol : v.username = u ∨ v.email = e)
    (hu : u ≠ "") (he : e ≠ "") :
    s.create u e = Except.error DuplicateKeyError.duplicateKey ∧
    (createUser (some ⟨some u, some e⟩) s).1.code = 400 ∧
    (createUser (some ⟨some u, some e⟩) s).1.status = "fail" ∧
    (createUser (some ⟨some u, some e⟩) s).1.message =
      some "Sorry. That email already exists." ∧
    (createUser (some ⟨some u, some e⟩) s).2 = s ∧
    ((createUser (some ⟨some u, some e⟩) s).2).users.length = s.users.length := by
  have hc := Store.collides_eq_true_of_mem hv hcol
  have herr := Store.create_error hc
  refine ⟨herr, ?_, ?_, ?_, ?_, ?_⟩ <;>
    simp [createUser, herr, hu, he, duplicateResp]

theorem create_duplicate_rejected_witness :
    Store.create "other" "chriswoo@gmail.com"
        ⟨[⟨1, "chriswoo", "chriswoo@gmail.com"⟩], 2⟩ =
      Except.error DuplicateKeyError.duplicateKey ∧
    (createUser (some ⟨some "other", some "chriswoo@gmail.com"⟩)
        ⟨[⟨1, "chriswoo", "chriswoo@gmail.com"⟩], 2⟩).1.code = 400 ∧
    (createUser (some ⟨some "other", some "chriswoo@gmail.com"⟩)
        ⟨[⟨1, "chriswoo", "chriswoo@gmail.com"⟩], 2⟩).1.status = "fail" ∧
    (createUser (some ⟨some "other", some "chriswoo@gmail.com"⟩)
        ⟨[⟨1, "chriswoo", "chriswoo@gmail.com"⟩], 2⟩).1.message =
      some "Sorry. That email already exists." ∧
    (createUser (some ⟨some "other", some "chriswoo@gmail.com"⟩)
        ⟨[⟨1, "chriswoo", "chriswoo@gmail.com"⟩], 2⟩).2 =
      ⟨[⟨1, "chriswoo", "chriswoo@gmail.com"⟩], 2⟩ ∧
    ((createUser (some ⟨some "other", some "chriswoo@gmail.com"⟩)
        ⟨[⟨1, "chriswoo", "chriswoo@gmail.com"⟩], 2⟩).2).users.length =
      ([⟨1, "chriswoo", "chriswoo@gmail.com"⟩] : List User).length :=
  create_duplicate_rejected ⟨[⟨1, "chriswoo", "chriswoo@gmail.com"⟩], 2⟩
    "other" "chriswoo@gmail.com" ⟨1, "chriswoo", "chriswoo@gmail.com"⟩
    (by decide) (Or.inr rfl) (by decide) (by decide)

/-- C2: for every create request whose body is empty or missing the
`username` key or missing the `email` key, the API responds HTTP 400 with
status marker "fail" and message "Invalid payload.", and no record is added
to the Store. -/
theorem create_invalid_payload (body : Option Payload) (s : Store)
    (h : body = none ∨
      ∃ p, body = some p ∧ (p.username? = none ∨ p.email? = none)) :
    (createUser body s).1.code = 400 ∧
    (createUser body s).1.status = "fail" ∧
    (createUser body s).1.message = some "Invalid payload." ∧
    (createUser body s).2 = s := by
  have main : createUser body s = (invalidPayloadResp, s) := by
    rcases h with rfl | ⟨p, rfl, hp⟩
    · rfl
    · rcases p with ⟨u?, e?⟩
      rcases hp with h | h
      · subst h; cases e? <;> rfl
      · subst h; cases u? <;> rfl
  refine ⟨?_, ?_, ?_, ?_⟩ <;> rw [main] <;> rfl

theorem create_invalid_payload_witness :
    (createUser (some ⟨none, some "chriswoo@gmail.com"⟩) Store.empty).1.code = 400 ∧
    (createUser (some ⟨none, some "chriswoo@gmail.com"⟩) Store.empty).1.status = "fail" ∧
    (createUser (some ⟨none, some "chriswoo@gmail.com"⟩) Store.empty).1.message =
      some "Invalid payload." ∧
    (createUser (some ⟨none, some "chriswoo@gmail.com"⟩) Store.empty).2 = Store.empty :=
  create_invalid_payload (some ⟨none, some "chriswoo@gmail.com"⟩) Store.empty
    (Or.inr ⟨⟨none, some "chriswoo@gmail.com"⟩, rfl, Or.inl rfl⟩)

/-- C5: for every get-user request whose identifier is either unparsable as
a numeric id or is a valid id never assigned to a User, the outcome is the
same single `NotFound` result: HTTP 404 with status marker "fail" and
message "User does not exist.". -/
theorem get_user_not_found (ident : String) (s : Store)
    (h : parseId ident = none ∨
      ∀ id : Nat, parseId ident = some id → ∀ v ∈ s.users, v.id ≠ id) :
    getUser ident s = notFoundResp ∧
    (getUser ident s).code = 404 ∧
    (getUser ident s).status = "fail" ∧
    (getUser ident s).message = some "User does not exist." := by
  have main : getUser ident s = notFoundResp := by
    unfold getUser
    rcases h with h | h
    · simp [h]
    · cases hid : parseId ident with
      | none => simp
      | some id =>
        have hnone : s.get_by_id id = none := by
          unfold Store.get_by_id
          rw [List.find?_eq_none]
          intro v hv
          simp [h id hid v hv]
        simp [hnone]
  refine ⟨main, ?_, ?_, ?_⟩ <;> rw [main] <;> rfl

theorem get_user_not_found_witness :
    (getUser "blah" ⟨[⟨1, "chriswoo", "chriswoo@gmail.com"⟩], 2⟩ = notFoundResp ∧
      (getUser "blah" ⟨[⟨1, "chriswoo", "chriswoo@gmail.com"⟩], 2⟩).code = 404 ∧
      (getUser "blah" ⟨[⟨1, "chriswoo", "chriswoo@gmail.com"⟩], 2⟩).status = "fail" ∧
      (getUser "blah" ⟨[⟨1, "chriswoo", "chriswoo@gmail.com"⟩], 2⟩).message =
        some "User does not exist.") ∧
    (getUser "999" ⟨[⟨1, "chriswoo", "chriswoo@gmail.com"⟩], 2⟩ = notFoundResp ∧
      (getUser "999" ⟨[⟨1, "chriswoo", "chriswoo@gmail.com"⟩], 2⟩).code = 404 ∧
      (getUser "999" ⟨[⟨1, "chriswoo", "chriswoo@gmail.com"⟩], 2⟩).status = "fail" ∧
      (getUser "999" ⟨[⟨1, "chriswoo", "chriswoo@gmail.com"⟩], 2⟩).message =
        some "User does not exist.") :=
  ⟨get_user_not_found "blah" ⟨[⟨1, "chriswoo", "chriswoo@gmail.com"⟩], 2⟩
      (Or.inl (by decide)),
    get_user_not_found "999" ⟨[⟨1, "chriswoo", "chriswoo@gmail.com"⟩], 2⟩
      (Or.inr (by decide))⟩

/-- C7: for every create request with a well-formed body containing
non-empty username and email not already present, the API responds HTTP 201
with status marker "success" and the message "<email> was added!". -/
theorem create_success_response (s : Store) (u e : String)
    (hu : u ≠ "") (he : e ≠ "")
    (hfresh : ∀ v ∈ s.users, v.username ≠ u ∧ v.email ≠ e) :
    (createUser (some ⟨some u, some e⟩) s).1.code = 201 ∧
    (createUser (some ⟨some u, some e⟩) s).1.status = "success" ∧
    (createUser (some ⟨some u, some e⟩) s).1.message = some (e ++ " was added!") := by
  have hcol := Store.collides_eq_false_iff.mpr hfresh
  have hok := Store.create_ok hcol
  refine ⟨?_, ?_, ?_⟩ <;> simp [createUser, hok, hu, he]

theorem create_success_response_witness :
    (createUser (some ⟨some "chris", some "chriswoo@gmail.com"⟩) Store.empty).1.code = 201 ∧
    (createUser (some ⟨some "chris", some "chriswoo@gmail.com"⟩) Store.empty).1.status =
      "success" ∧
    (createUser (some ⟨some "chris", some "chriswoo@gmail.com"⟩) Store.empty).1.message =
      some ("chriswoo@gmail.com" ++ " was added!") :=
  create_success_response Store.empty "chris" "chriswoo@gmail.com"
    (by decide) (by decide) (by decide)

/-- C3: for every valid (username, email) pair not already present in the
Store, a successful create followed by `get_by_id` on the returned id yields
a User whose username and email equal the pair that was created. -/
theorem create_get_by_id_roundtrip (s : Store) (u e : String)
    (hu : u ≠ "") (he : e ≠ "")
    (hfresh : ∀ v ∈ s.users, v.username ≠ u ∧ v.email ≠ e)
    (hid : ∀ v ∈ s.users, v.id < s.nextId) :
    ∃ user s', s.create u e = Except.ok (user, s') ∧
      user.username = u ∧ user.email = e ∧
      s'.get_by_id user.id = some user := by
  have hcol := Store.collides_eq_false_iff.mpr hfresh
  refine ⟨⟨s.nextId, u, e⟩, _, Store.create_ok hcol, rfl, rfl, ?_⟩
  unfold Store.get_by_id
  apply find?_append_singleton
  · intro x hx
    simp [Nat.ne_of_lt (hid x hx)]
  · simp

theorem create_get_by_id_roundtrip_witness :
    ∃ user s',
      Store.create "johndoe" "johndoe@gmail.com"
          ⟨[⟨1, "chriswoo", "chriswoo@gmail.com"⟩], 2⟩ =
        Except.ok (user, s') ∧
      user.username = "johndoe" ∧ user.email = "johndoe@gmail.com" ∧
      s'.get_by_id user.id = some user :=
  create_get_by_id_roundtrip ⟨[⟨1, "chriswoo", "chriswoo@gmail.com"⟩], 2⟩
    "johndoe" "johndoe@gmail.com" (by decide) (by decide) (by decide) (by decide)

/-- Runs a sequence of create requests against a store, keeping the state of
a failed create unchanged (spec section 4.1: a failed create adds nothing). -/
def createAll (pairs : List (String × String)) (s : Store) : Store :=
  pairs.foldl
    (fun t p =>
      match t.create p.1 p.2 with
      | .ok (_, t') => t'
      | .error _ => t)
    s

theorem createAll_users (pairs : List (String × String)) :
    ∀ s : Store,
      pairs.Pairwise (fun p q => p.1 ≠ q.1 ∧ p.2 ≠ q.2) →
      (∀ p ∈ pairs, ∀ v ∈ s.users, v.username ≠ p.1 ∧ v.email ≠ p.2) →
      (createAll pairs s).users.map (fun u => (u.username, u.email)) =
        s.users.map (fun u => (u.username, u.email)) ++ pairs := by
  induction pairs with
  | nil =>
    intro s _ _
    simp [createAll]
  | cons p rest ih =>
    intro s hdis hfresh
    have hcol : s.collides p.1 p.2 = false :=
      Store.collides_eq_false_iff.mpr
        (fun v hv => hfresh p (List.mem_cons_self p rest) v hv)
    have hstep : createAll (p :: rest) s =
        createAll rest ⟨s.users ++ [⟨s.nextId, p.1, p.2⟩], s.nextId + 1⟩ := by
      simp [createAll, Store.create_ok hcol]
    rw [hstep]
    have hdis' := (List.pairwise_cons.mp hdis).2
    have hhead := (List.pairwise_cons.mp hdis).1
    have hfresh' : ∀ q ∈ rest,
        ∀ v ∈ (⟨s.users ++ [⟨s.nextId, p.1, p.2⟩], s.nextId + 1⟩ : Store).users,
        v.username ≠ q.1 ∧ v.email ≠ q.2 := by
      intro q hq v hv
      rcases List.mem_append.mp hv with hv | hv
      · exact hfresh q (List.mem_cons_of_mem p hq) v hv
      · rcases List.mem_singleton.mp hv with rfl
        exact hhead q hq
    rw [ih _ hdis' hfresh']
    simp

/-- C4: after any sequence of N distinct successful creates starting from
the empty Store, `list_all` returns exactly N records, in creation order
ascending (their username/email pairs are the requested pairs in order);
with no users it returns the empty sequence. -/
theorem list_all_creation_order (pairs : List (String × String))
    (hdis : pairs.Pairwise (fun p q => p.1 ≠ q.1 ∧ p.2 ≠ q.2)) :
    (createAll pairs Store.empty).list_all.map (fun u => (u.username, u.email)) =
      pairs ∧
    (createAll pairs Store.empty).list_all.length = pairs.length ∧
    Store.empty.list_all = [] := by
  have h := createAll_users pairs Store.empty hdis
    (by intro p _ v hv; simp [Store.empty] at hv)
  rw [Store.empty] at h
  simp only [Store.list_all] at *
  refine ⟨by simpa using h, ?_, rfl⟩
  have := congrArg List.length h
  simpa using this

theorem list_all_creation_order_witness :
    (createAll [("chriswoo", "chriswoo@gmail.com"), ("johndoe", "johndoe@gmail.com")]
        Store.empty).list_all.map (fun u => (u.username, u.email)) =
      [("chriswoo", "chriswoo@gmail.com"), ("johndoe", "johndoe@gmail.com")] ∧
    (createAll [("chriswoo", "chriswoo@gmail.com"), ("johndoe", "johndoe@gmail.com")]
        Store.empty).list_all.length =
      ([("chriswoo", "chriswoo@gmail.com"), ("johndoe", "johndoe@gmail.com")] :
        List (String × String)).length ∧
    Store.empty.list_all = [] :=
  list_all_creation_order
    [("chriswoo", "chriswoo@gmail.com"), ("johndoe", "johndoe@gmail.com")]
    (by decide)

/-- The states reachable by the Store's operations: the empty store, plus
everything a successful `create` (the only mutating operation) reaches. -/
inductive Reachable : Store → Prop where
  | init : Reachable Store.empty
  | step {s : Store} {u e : String} {user : User} {s' : Store} :
      Reachable s → s.create u e = Except.ok (user, s') → Reachable s'

/-- C6: in every state reachable by the Store's operations, no two Users
share the same email and no two Users share the same username. -/
theorem reachable_unique_usernames_emails (s : Store) (h : Reachable s) :
    s.users.Pairwise (fun a b => a.username ≠ b.username ∧ a.email ≠ b.email) := by
  induction h with
  | init => simp [Store.empty]
  | step hr hok ih =>
    rename_i t u e user t'
    cases hc : t.collides u e with
    | true =>
      rw [Store.create_error hc] at hok
      cases hok
    | false =>
      rw [Store.create_ok hc] at hok
      have ht' : t' = ⟨t.users ++ [⟨t.nextId, u, e⟩], t.nextId + 1⟩ :=
        (congrArg Prod.snd (Except.ok.inj hok)).symm
      rw [ht']
      rw [List.pairwise_append]
      refine ⟨ih, List.pairwise_singleton _ _, ?_⟩
      intro a ha b hb
      rcases List.mem_singleton.mp hb with rfl
      exact Store.collides_eq_false_iff.mp hc a ha

theorem reachable_unique_usernames_emails_witness :
    (⟨[⟨1, "chriswoo", "chriswoo@gmail.com"⟩], 2⟩ : Store).users.Pairwise
      (fun a b => a.username ≠ b.username ∧ a.email ≠ b.email) :=
  reachable_unique_usernames_emails ⟨[⟨1, "chriswoo", "chriswoo@gmail.com"⟩], 2⟩
    (@Reachable.step Store.empty "chriswoo" "chriswoo@gmail.com"
      ⟨1, "chriswoo", "chriswoo@gmail.com"⟩
      ⟨[⟨1, "chriswoo", "chriswoo@gmail.com"⟩], 2⟩
      Reachable.init rfl)

/-- C9: the server-rendered main route GET / always returns HTTP 200 with a
page carrying the "All Users" heading; its body is the "No users!"
paragraph exactly when no users exist, and otherwise it lists every stored
user's username. -/
theorem main_route_page (s : Store) :
    (mainGet s).code = 200 ∧
    (mainGet s).heading = "All Users" ∧
    ((mainGet s).body = PageBody.noUsers ↔ s.users = []) ∧
    (s.users ≠ [] →
      (mainGet s).body = PageBody.userList (s.users.map (fun u => u.username)) ∧
      ∀ v ∈ s.users, v.username ∈ s.users.map (fun u => u.username)) := by
  refine ⟨rfl, rfl, ?_, ?_⟩
  · by_cases hse : s.users = []
    · simp [mainGet, hse]
    · have hie : s.users.isEmpty = false := by
        simpa [List.isEmpty_iff] using hse
      simp [mainGet, hie, hse]
  · intro hse
    have hie : s.users.isEmpty = false := by
      simpa [List.isEmpty_iff] using hse
    refine ⟨by simp [mainGet, hie], ?_⟩
    intro v hv
    exact List.mem_map_of_mem _ hv

theorem main_route_page_witness :
    ((mainGet Store.empty).code = 200 ∧
      (mainGet Store.empty).heading = "All Users" ∧
      ((mainGet Store.empty).body = PageBody.noUsers ↔ Store.empty.users = []) ∧
      (Store.empty.users ≠ [] →
        (mainGet Store.empty).body =
          PageBody.userList (Store.empty.users.map (fun u => u.username)) ∧
        ∀ v ∈ Store.empty.users,
          v.username ∈ Store.empty.users.map (fun u => u.username))) ∧
    ((mainGet ⟨[⟨1, "chriswoo", "chriswoo@gmail.com"⟩], 2⟩).code = 200 ∧
      (mainGet ⟨[⟨1, "chriswoo", "chriswoo@gmail.com"⟩], 2⟩).heading = "All Users" ∧
      ((mainGet ⟨[⟨1, "chriswoo", "chriswoo@gmail.com"⟩], 2⟩).body = PageBody.noUsers ↔
        (⟨[⟨1, "chriswoo", "chriswoo@gmail.com"⟩], 2⟩ : Store).users = []) ∧
      ((⟨[⟨1, "chriswoo", "chriswoo@gmail.com"⟩], 2⟩ : Store).users ≠ [] →
        (mainGet ⟨[⟨1, "chriswoo", "chriswoo@gmail.com"⟩], 2⟩).body =
          PageBody.userList
            ((⟨[⟨1, "chriswoo", "chriswoo@gmail.com"⟩], 2⟩ : Store).users.map
              (fun u => u.username)) ∧
        ∀ v ∈ (⟨[⟨1, "chriswoo", "chriswoo@gmail.com"⟩], 2⟩ : Store).users,
          v.username ∈
            (⟨[⟨1, "chriswoo", "chriswoo@gmail.com"⟩], 2⟩ : Store).users.map
              (fun u => u.username))) :=
  ⟨main_route_page Store.empty,
    main_route_page ⟨[⟨1, "chriswoo", "chriswoo@gmail.com"⟩], 2⟩⟩

/-- C10: posting the form-accepting create variant at / with a username and
email that already exist in the Store does not surface a duplicate error:
the store is unchanged and, after the redirect, the response is HTTP 200
rendering the users page, which lists the existing user. -/
theorem main_post_duplicate (s : Store) (u e : String) (v : User)
    (hv : v ∈ s.users) (hu : v.username = u) (he : v.email = e) :
    (mainPost u e s).2 = s ∧
    (mainPost u e s).1.code = 200 ∧
    (mainPost u e s).1.heading = "All Users" ∧
    (mainPost u e s).1.body =
      PageBody.userList (s.users.map (fun w => w.username)) ∧
    u ∈ s.users.map (fun w => w.username) := by
  have hc : s.collides u e = true := Store.collides_eq_true_of_mem hv (Or.inl hu)
  have herr := Store.create_error hc
  have hne : s.users ≠ [] := by
    intro h0
    rw [h0] at hv
    cases hv
  have hie : s.users.isEmpty = false := by
    simpa [List.isEmpty_iff] using hne
  refine ⟨?_, ?_, ?_, ?_, ?_⟩
  · simp [mainPost, herr]
  · simp [mainPost, herr, mainGet]
  · simp [mainPost, herr, mainGet]
  · simp [mainPost, herr, mainGet, hie]
  · exact hu ▸ List.mem_map_of_mem _ hv

theorem main_post_duplicate_witness :
    (mainPost "chriswoo" "chriswoo@gmail.com"
        ⟨[⟨1, "chriswoo", "chriswoo@gmail.com"⟩, ⟨2, "johndoe", "johndoe@gmail.com"⟩],
          3⟩).2 =
      ⟨[⟨1, "chriswoo", "chriswoo@gmail.com"⟩, ⟨2, "johndoe", "johndoe@gmail.com"⟩],
        3⟩ ∧
    (mainPost "chriswoo" "chriswoo@gmail.com"
        ⟨[⟨1, "chriswoo", "chriswoo@gmail.com"⟩, ⟨2, "johndoe", "johndoe@gmail.com"⟩],
          3⟩).1.code = 200 ∧
    (mainPost "chriswoo" "chriswoo@gmail.com"
        ⟨[⟨1, "chriswoo", "chriswoo@gmail.com"⟩, ⟨2, "johndoe", "johndoe@gmail.com"⟩],
          3⟩).1.heading = "All Users" ∧
    (mainPost "chriswoo" "chriswoo@gmail.com"
        ⟨[⟨1, "chriswoo", "chriswoo@gmail.com"⟩, ⟨2, "johndoe", "johndoe@gmail.com"⟩],
          3⟩).1.body =
      PageBody.userList
        (([⟨1, "chriswoo", "chriswoo@gmail.com"⟩,
            ⟨2, "johndoe", "johndoe@gmail.com"⟩] : List User).map
          (fun w => w.username)) ∧
    "chriswoo" ∈
      ([⟨1, "chriswoo", "chriswoo@gmail.com"⟩,
          ⟨2, "johndoe", "johndoe@gmail.com"⟩] : List User).map
        (fun w => w.username) :=
  main_post_duplicate
    ⟨[⟨1, "chriswoo", "chriswoo@gmail.com"⟩, ⟨2, "johndoe", "johndoe@gmail.com"⟩], 3⟩
    "chriswoo" "chriswoo@gmail.com" ⟨1, "chriswoo", "chriswoo@gmail.com"⟩
    (by decide) rfl rfl

end Users
